import Mathlib

/-!
Verification development for the sveltia-cms-auth presigned-URL subsystem.

The JavaScript sources are shallowly embedded below:
* string primitives (`includes`, `startsWith`, the two regex replaces that
  strip slashes) are modelled on character lists;
* the HTTP handlers `handlePresign` / `handlePresignBatch` are modelled after
  session validation and JSON parsing, i.e. on a parsed request body, and are
  parameterised over the `getPresigner` resolver so that provider
  (non-)invocation is expressible;
* the Web-Crypto primitives (SHA-256, HMAC-SHA256, RSASSA-PKCS1-v1_5) are
  platform calls outside the repository, so the signer embeddings take them as
  explicit function parameters; everything the repository itself computes
  (field order, canonicalisation, encodings, URL assembly) is embedded
  concretely.
-/

namespace SveltiaPresign

/-- JS string truthiness for an optional environment/body field:
`undefined` and the empty string are falsy. -/
def truthy : Option String → Bool
  | none => false
  | some s => !s.toList.isEmpty

/-- JS `a || b` on an optional string with a string fallback. -/
def jsOr (a : Option String) (b : String) : String :=
  if truthy a then a.getD "" else b

/-- Substring search on character lists (JS `String.prototype.includes`). -/
def containsSub : List Char → List Char → Bool
  | [], pat => pat.isPrefixOf ([] : List Char)
  | l@(_ :: t), pat => pat.isPrefixOf l || containsSub t pat

/-- JS `s.includes(sub)`. -/
def jsIncludes (s sub : String) : Bool :=
  containsSub s.toList sub.toList

/-- JS `s.startsWith(p)`. -/
def jsStartsWith (s p : String) : Bool :=
  p.toList.isPrefixOf s.toList

/-- JS `path.replace(/^\//, '')`: drop one leading slash, if any. -/
def cleanPathOf (p : String) : String :=
  match p.toList with
  | '/' :: rest => ⟨rest⟩
  | _ => p

/-- Drop one leading `'/'` from a character list. -/
def dropLeadSlash (cs : List Char) : List Char :=
  match cs with
  | '/' :: rest => rest
  | l => l

/-- Drop one trailing `'/'` from a character list. -/
def dropTrailSlash (cs : List Char) : List Char :=
  match cs.reverse with
  | '/' :: rest => rest.reverse
  | _ => cs

/-- JS `s.replace(/^\/|\/$/g, '')` (the R2 prefix normalisation): the global
regex deletes the character at position 0 when it is `'/'` and the character
at the final position when it is `'/'`. -/
def normalizePfx (s : String) : String :=
  ⟨dropTrailSlash (dropLeadSlash s.toList)⟩

/-! ## Provider registry (src/providers/index.js) -/

/-- The environment fields read by `detectProvider`; `none` models an unset
variable. -/
structure Env where
  R2_ACCOUNT_ID : Option String
  R2_ACCESS_KEY_ID : Option String
  GCS_PROJECT_ID : Option String
  GOOGLE_APPLICATION_CREDENTIALS : Option String
  AZURE_STORAGE_ACCOUNT : Option String
  AZURE_STORAGE_CONNECTION_STRING : Option String
  S3_ENDPOINT : Option String
deriving Repr, DecidableEq

/-- `detectProvider(env)` from src/providers/index.js. -/
def detectProvider (env : Env) : String :=
  if truthy env.R2_ACCOUNT_ID || truthy env.R2_ACCESS_KEY_ID then "r2"
  else if truthy env.GCS_PROJECT_ID || truthy env.GOOGLE_APPLICATION_CREDENTIALS then "gcs"
  else if truthy env.AZURE_STORAGE_ACCOUNT || truthy env.AZURE_STORAGE_CONNECTION_STRING then
    "azure"
  else
    let endpoint := jsOr env.S3_ENDPOINT ""
    if !endpoint.toList.isEmpty && !(jsIncludes endpoint "amazonaws.com") then "minio"
    else "s3"

/-- Which presigner class `getPresigner` constructs. -/
inductive SignerKind where
  | s3
  | r2
  | gcs
  | azure
deriving Repr, DecidableEq

/-- The `switch (detectedProvider)` dispatch of `getPresigner`:
`'s3'`, `'minio'` and the `default` branch all construct the S3-compatible
presigner. -/
def dispatchSigner (detected : String) : SignerKind :=
  if detected = "r2" then .r2
  else if detected = "gcs" then .gcs
  else if detected = "azure" then .azure
  else .s3

/-- `getPresigner(provider, env)` restricted to the class it selects:
`provider || detectProvider(env)` then the switch. -/
def selectSigner (provider : Option String) (env : Env) : SignerKind :=
  dispatchSigner (if truthy provider then provider.getD "" else detectProvider env)

/-! ## Presign handlers (src/handlers/presign.js) -/

/-- The options object handlers pass to `generatePresignedUrl`.  `expiresIn`
is optional because every provider destructures it with a default of 900. -/
structure PresignOptions where
  operation : String
  path : String
  contentType : Option String
  bucket : Option String
  expiresIn : Option Nat
deriving Repr, DecidableEq

/-- A provider's `generatePresignedUrl`, as a fallible URL computation
(`Except` models the thrown-error path caught by the handlers). -/
abbrev Presigner : Type := PresignOptions → Except String String

/-- `getPresigner(provider, env)` as the handlers see it: resolution plus the
chosen constructor, whose thrown configuration errors surface as `.error`. -/
abbrev GetPresigner : Type := Option String → Except String Presigner

/-- Parsed JSON body of a single `/presign` request (fields absent from the
JSON are `none`; the handler destructures only the five named fields, so an
`expiresIn` member of the body is never read). -/
structure PresignBody where
  provider : Option String
  operation : Option String
  path : Option String
  contentType : Option String
  bucket : Option String
  expiresIn : Option Nat
deriving Repr, DecidableEq

/-- A JSON value appearing in a batch `paths` array: a string, or anything
else (`typeof p !== 'string'`). -/
inductive JVal where
  | jstr (s : String)
  | jother
deriving Repr, DecidableEq

/-- The string content of a validated batch entry. -/
def JVal.toStr : JVal → String
  | .jstr s => s
  | .jother => ""

/-- The batch path validator: non-strings, paths containing `..`, and paths
starting with `/` are invalid. -/
def isInvalidEntry : JVal → Bool
  | .jstr s => jsIncludes s ".." || jsStartsWith s "/"
  | .jother => true

/-- Parsed JSON body of a `/presign-batch` request; `paths = none` models a
missing or non-array `paths` member. -/
structure BatchBody where
  provider : Option String
  paths : Option (List JVal)
  operation : Option String
  bucket : Option String
  expiresIn : Option Nat
deriving Repr, DecidableEq

/-- `DEFAULT_EXPIRY` from src/handlers/presign.js. -/
def DEFAULT_EXPIRY : Nat := 900

/-- A single-presign HTTP response: an error with its status code, or the
success payload `{ url, expiresIn, path, operation }`. -/
inductive SingleResult where
  | err (status : Nat) (message : String)
  | ok (url : String) (expiresIn : Nat) (path : String) (operation : String)
deriving Repr, DecidableEq

/-- A batch-presign HTTP response: an error with its status code, or the
success payload `{ urls, expiresIn, count }` (`urls` in insertion order). -/
inductive BatchResult where
  | err (status : Nat) (message : String)
  | ok (urls : List (String × String)) (expiresIn : Nat) (count : Nat)
deriving Repr, DecidableEq

/-- `handlePresign` after session validation and JSON parsing. -/
def handlePresign (getP : GetPresigner) (body : PresignBody) : SingleResult :=
  if !truthy body.operation || !truthy body.path then
    .err 400 "Missing required fields: operation, path"
  else
    let operation := body.operation.getD ""
    let path := body.path.getD ""
    if !(["GET", "PUT", "DELETE"].contains operation) then
      .err 400 "Invalid operation. Must be GET, PUT, or DELETE"
    else if jsIncludes path ".." || jsStartsWith path "/" then
      .err 400 "Invalid path"
    else
      match getP body.provider with
      | .error e => .err 500 e
      | .ok presigner =>
        match presigner { operation := operation, path := path,
                          contentType := body.contentType, bucket := body.bucket,
                          expiresIn := some DEFAULT_EXPIRY } with
        | .error e => .err 500 e
        | .ok url => .ok url DEFAULT_EXPIRY path operation

/-- The options object the batch loop passes for one path (no content type). -/
def batchOpts (operation : String) (bucket : Option String) (p : String) :
    PresignOptions :=
  { operation := operation, path := p, contentType := none, bucket := bucket,
    expiresIn := some DEFAULT_EXPIRY }

/-- The sequential batch loop: sign each path in order, aborting on the first
failure (the JS `for … of` with `await` inside `try`). -/
def runBatch (presigner : Presigner) (operation : String) (bucket : Option String) :
    List String → Except String (List (String × String))
  | [] => .ok []
  | p :: rest =>
    match presigner (batchOpts operation bucket p) with
    | .error e => .error e
    | .ok url =>
      match runBatch presigner operation bucket rest with
      | .error e => .error e
      | .ok urls => .ok ((p, url) :: urls)

/-- `handlePresignBatch` after session validation and JSON parsing. -/
def handlePresignBatch (getP : GetPresigner) (body : BatchBody) : BatchResult :=
  match body.paths with
  | none => .err 400 "paths must be a non-empty array"
  | some l =>
    if l.isEmpty then .err 400 "paths must be a non-empty array"
    else if l.length > 100 then .err 400 "Batch size exceeds maximum of 100"
    else
      match l.find? isInvalidEntry with
      | some v => .err 400 ("Invalid path: " ++ v.toStr)
      | none =>
        match getP body.provider with
        | .error e => .err 500 e
        | .ok presigner =>
          match runBatch presigner (body.operation.getD "GET") body.bucket
              (l.map JVal.toStr) with
          | .error e => .err 500 e
          | .ok urls => .ok urls DEFAULT_EXPIRY l.length

/-! ## Encoding helpers shared by the signer embeddings -/

/-- `[...].join(sep)` (JS `Array.prototype.join`). -/
def joinSep (sep : String) : List String → String
  | [] => ""
  | [x] => x
  | x :: rest => x ++ sep ++ joinSep sep rest

/-- The sixteen hexadecimal digit characters, lowercase. -/
def hexCharsLower : List Char :=
  "0123456789abcdef".toList

/-- Lowercase hex digit of `n % 16`. -/
def hexDigitLower (n : Nat) : Char :=
  hexCharsLower.getD (n % 16) '0'

/-- `b.toString(16).padStart(2, '0')` for a byte value. -/
def byteHexLower (b : Nat) : String :=
  ⟨[hexDigitLower (b / 16), hexDigitLower b]⟩

/-- Hex-encode a byte sequence, two lowercase digits per byte (the
`Array.from(bytes).map(b => b.toString(16).padStart(2, '0')).join('')`
idiom used for the GCS hash and signature). -/
def hexEncodeBytesLower : List Nat → String
  | [] => ""
  | b :: rest => byteHexLower b ++ hexEncodeBytesLower rest

/-- Uppercase hex digit of `n % 16`. -/
def hexDigitUpper (n : Nat) : Char :=
  "0123456789ABCDEF".toList.getD (n % 16) '0'

/-- One byte of WHATWG `application/x-www-form-urlencoded` serialisation, the
encoding `URLSearchParams.toString()` applies: ASCII alphanumerics and
`*`, `-`, `.`, `_` pass through, space becomes `+`, anything else `%XX`. -/
def formEncodeByte (b : Nat) : String :=
  if (0x30 ≤ b && b ≤ 0x39) || (0x41 ≤ b && b ≤ 0x5A) || (0x61 ≤ b && b ≤ 0x7A)
      || b = 0x2A || b = 0x2D || b = 0x2E || b = 0x5F then
    ⟨[Char.ofNat b]⟩
  else if b = 0x20 then "+"
  else "%" ++ ⟨[hexDigitUpper (b / 16), hexDigitUpper b]⟩

/-- The UTF-8 bytes of a string. -/
def utf8Bytes (s : String) : List Nat :=
  (s.toList.map String.utf8EncodeChar).flatten.map (fun b => b.toNat)

/-- Form-urlencode a string, byte-wise over its UTF-8 encoding. -/
def formEncode (s : String) : String :=
  joinSep "" ((utf8Bytes s).map formEncodeByte)

/-- JS `s.replace(/\+/g, '%20')`: every `'+'` becomes `%20`. -/
def replacePlus (s : String) : String :=
  ⟨(s.toList.map (fun c => if c = '+' then ['%', '2', '0'] else [c])).flatten⟩

/-- `new URLSearchParams({...}).toString()`: `k=v` pairs in insertion order,
keys and values form-urlencoded, joined with `&`. -/
def searchParamsToString (params : List (String × String)) : String :=
  joinSep "&" (params.map (fun kv => formEncode kv.1 ++ "=" ++ formEncode kv.2))

/-! ## R2 presigner (src/providers/r2.js) -/

/-- The R2 configuration read by the constructor; `pathPfx` is the raw
`R2_PATH_PREFIX` value (default empty). -/
structure R2Config where
  accountId : String
  bucket : String
  pathPfx : String
deriving Repr, DecidableEq

/-- `R2Presigner.#buildUrl`, including the constructor's slash normalisation
of the configured path prefix. -/
def r2BuildUrl (cfg : R2Config) (path : String) (bucket : Option String) : String :=
  let pfx := normalizePfx cfg.pathPfx
  let bucketName := jsOr bucket cfg.bucket
  let cleanPath := cleanPathOf path
  let fullPath := if !pfx.toList.isEmpty then pfx ++ "/" ++ cleanPath else cleanPath
  "https://" ++ cfg.accountId ++ ".r2.cloudflarestorage.com/" ++ bucketName ++ "/" ++ fullPath

/-! ## Azure presigner (src/providers/azure.js) -/

/-- The Azure configuration fields used when signing. -/
structure AzureConfig where
  accountName : String
  container : String
deriving Repr, DecidableEq

/-- The data `AzurePresigner.generatePresignedUrl` produces: the string fed
to HMAC-SHA256, the SAS parameter list, and the final URL. -/
structure AzurePresignResult where
  stringToSign : String
  sasParams : List (String × String)
  url : String
deriving Repr, DecidableEq

/-- The `GET → r`, `PUT → cw`, `DELETE → d` permission mapping (default
`r`). -/
def azurePermissions (operation : String) : String :=
  if operation = "PUT" then "cw"
  else if operation = "DELETE" then "d"
  else "r"

/-- `AzurePresigner.generatePresignedUrl`.  `signedStart` / `signedExpiry`
are the already-formatted `st` / `se` timestamps (the real code derives them
from the wall clock), and `sign` is the platform HMAC-SHA256 + base64
primitive. -/
def azurePresign (cfg : AzureConfig) (o : PresignOptions)
    (signedStart signedExpiry : String) (sign : String → String) :
    AzurePresignResult :=
  let containerName := jsOr o.bucket cfg.container
  let cleanPath := cleanPathOf o.path
  let signedPermissions := azurePermissions o.operation
  let signedVersion := "2022-11-02"
  let signedResource := "b"
  let signedProtocol := "https"
  let canonicalizedResource :=
    "/blob/" ++ cfg.accountName ++ "/" ++ containerName ++ "/" ++ cleanPath
  let stringToSign := joinSep "\n"
    [signedPermissions, signedStart, signedExpiry, canonicalizedResource,
     "", "", signedProtocol, signedVersion, signedResource, "", "",
     "", "", "", "", o.contentType.getD ""]
  let signature := sign stringToSign
  let sasParams :=
    [("sv", signedVersion), ("ss", "b"), ("srt", "o"), ("sp", signedPermissions),
     ("st", signedStart), ("se", signedExpiry), ("spr", signedProtocol),
     ("sig", signature)]
    ++ (if truthy o.contentType then [("rsct", o.contentType.getD "")] else [])
  let baseUrl := "https://" ++ cfg.accountName ++ ".blob.core.windows.net/"
    ++ containerName ++ "/" ++ cleanPath
  { stringToSign := stringToSign, sasParams := sasParams,
    url := baseUrl ++ "?" ++ searchParamsToString sasParams }

/-! ## GCS presigner (src/providers/gcs.js) -/

/-- The GCS configuration fields used when signing. -/
structure GCSConfig where
  bucket : String
  clientEmail : String
deriving Repr, DecidableEq

/-- The data `GCSPresigner.generatePresignedUrl` produces. -/
structure GCSPresignResult where
  canonicalRequest : String
  stringToSign : String
  url : String
deriving Repr, DecidableEq

/-- `GCSPresigner.generatePresignedUrl`.  `timestamp` is the compact ISO
timestamp the code derives from the wall clock; `sha256hex` is the platform
SHA-256 digest rendered in hex, and `rsaSignBytes` the raw byte output of the
platform RSASSA-PKCS1-v1_5 signature (the code base64-encodes those bytes and
immediately `atob`s them back before hex-rendering, a byte-level identity). -/
def gcsPresign (cfg : GCSConfig) (o : PresignOptions) (timestamp : String)
    (sha256hex : String → String) (rsaSignBytes : String → List Nat) :
    GCSPresignResult :=
  let bucketName := jsOr o.bucket cfg.bucket
  let cleanPath := cleanPathOf o.path
  let method :=
    if o.operation = "PUT" then "PUT"
    else if o.operation = "DELETE" then "DELETE"
    else "GET"
  let datestamp := timestamp.take 8
  let canonicalUri := "/" ++ bucketName ++ "/" ++ cleanPath
  let credentialScope := datestamp ++ "/auto/storage/goog4_request"
  let credential := cfg.clientEmail ++ "/" ++ credentialScope
  let signedHeaders := "host"
  let queryParams :=
    [("X-Goog-Algorithm", "GOOG4-RSA-SHA256"), ("X-Goog-Credential", credential),
     ("X-Goog-Date", timestamp), ("X-Goog-Expires", toString (o.expiresIn.getD 900)),
     ("X-Goog-SignedHeaders", signedHeaders)]
  let host := "storage.googleapis.com"
  let canonicalQueryString := replacePlus (searchParamsToString queryParams)
  let canonicalHeaders := "host:" ++ host ++ "\n"
  let canonicalRequest := joinSep "\n"
    [method, canonicalUri, canonicalQueryString, canonicalHeaders, signedHeaders,
     "UNSIGNED-PAYLOAD"]
  let canonicalRequestHashHex := sha256hex canonicalRequest
  let stringToSign := joinSep "\n"
    ["GOOG4-RSA-SHA256", timestamp, credentialScope, canonicalRequestHashHex]
  let signatureHex := hexEncodeBytesLower (rsaSignBytes stringToSign)
  { canonicalRequest := canonicalRequest, stringToSign := stringToSign,
    url := "https://" ++ host ++ canonicalUri ++ "?" ++ canonicalQueryString
      ++ "&X-Goog-Signature=" ++ signatureHex }

/-! ## General lemmas about the embedding -/

theorem joinSep_four (s a b c d : String) :
    joinSep s [a, b, c, d] = a ++ s ++ b ++ s ++ c ++ s ++ d := by
  simp [joinSep, String.append_assoc]

theorem joinSep_sixteen (s f1 f2 f3 f4 f5 f6 f7 f8 f9 f10 f11 f12 f13 f14 f15 f16 : String) :
    joinSep s [f1, f2, f3, f4, f5, f6, f7, f8, f9, f10, f11, f12, f13, f14, f15, f16] =
      f1 ++ s ++ f2 ++ s ++ f3 ++ s ++ f4 ++ s ++ f5 ++ s ++ f6 ++ s ++ f7 ++ s ++ f8
        ++ s ++ f9 ++ s ++ f10 ++ s ++ f11 ++ s ++ f12 ++ s ++ f13 ++ s ++ f14 ++ s
        ++ f15 ++ s ++ f16 := by
  simp [joinSep, String.append_assoc]

theorem hexDigitLower_mem (n : Nat) : hexDigitLower n ∈ hexCharsLower := by
  have h : n % 16 < 16 := Nat.mod_lt _ (by omega)
  unfold hexDigitLower
  generalize n % 16 = k at h ⊢
  interval_cases k <;> decide

theorem hexEncodeBytesLower_chars (bs : List Nat) :
    ∀ c ∈ (hexEncodeBytesLower bs).data, c ∈ hexCharsLower := by
  induction bs with
  | nil => intro c hc; simp [hexEncodeBytesLower] at hc
  | cons b t ih =>
    intro c hc
    simp only [hexEncodeBytesLower, byteHexLower, String.data_append, List.cons_append,
      List.nil_append, List.mem_cons] at hc
    rcases hc with h | h | h
    · exact h ▸ hexDigitLower_mem _
    · exact h ▸ hexDigitLower_mem _
    · exact ih c h

theorem hexEncodeBytesLower_length (bs : List Nat) :
    (hexEncodeBytesLower bs).data.length = 2 * bs.length := by
  induction bs with
  | nil => rfl
  | cons b t ih =>
    simp only [hexEncodeBytesLower, byteHexLower, String.data_append, List.length_append,
      List.length_cons, ih]
    simp; omega

/-! ## Claims -/

/-- C1: for every Azure signing request, the string handed to HMAC-SHA256 is
exactly the newline-join of 16 fields in order: permissions, start, expiry,
the canonicalized resource `/blob/account/container/key`, empty
signed-identifier, empty signed-IP, `https`, `2022-11-02`, `b`, empty
snapshot-time, empty encryption-scope, four empty response-header overrides,
and the request's content type or the empty string; the `sig` parameter holds
the HMAC of exactly that string. -/
theorem azure_string_to_sign_is_sixteen_fields (cfg : AzureConfig) (o : PresignOptions)
    (signedStart signedExpiry : String) (sign : String → String) :
    (azurePresign cfg o signedStart signedExpiry sign).stringToSign =
      azurePermissions o.operation ++ "\n" ++ signedStart ++ "\n" ++ signedExpiry
        ++ "\n" ++ ("/blob/" ++ cfg.accountName ++ "/" ++ jsOr o.bucket cfg.container
          ++ "/" ++ cleanPathOf o.path)
        ++ "\n" ++ "" ++ "\n" ++ "" ++ "\n" ++ "https" ++ "\n" ++ "2022-11-02"
        ++ "\n" ++ "b" ++ "\n" ++ "" ++ "\n" ++ "" ++ "\n" ++ "" ++ "\n" ++ ""
        ++ "\n" ++ "" ++ "\n" ++ "" ++ "\n" ++ o.contentType.getD ""
    ∧ ("sig", sign ((azurePresign cfg o signedStart signedExpiry sign).stringToSign))
        ∈ (azurePresign cfg o signedStart signedExpiry sign).sasParams := by
  constructor
  · have h : (azurePresign cfg o signedStart signedExpiry sign).stringToSign =
        joinSep "\n" [azurePermissions o.operation, signedStart, signedExpiry,
          "/blob/" ++ cfg.accountName ++ "/" ++ jsOr o.bucket cfg.container ++ "/"
            ++ cleanPathOf o.path,
          "", "", "https", "2022-11-02", "b", "", "", "", "", "", "",
          o.contentType.getD ""] := rfl
    rw [h, joinSep_sixteen]
  · have h : (azurePresign cfg o signedStart signedExpiry sign).sasParams =
        [("sv", "2022-11-02"), ("ss", "b"), ("srt", "o"),
         ("sp", azurePermissions o.operation), ("st", signedStart),
         ("se", signedExpiry), ("spr", "https"),
         ("sig", sign ((azurePresign cfg o signedStart signedExpiry sign).stringToSign))]
        ++ (if truthy o.contentType then [("rsct", o.contentType.getD "")] else []) := rfl
    rw [h]
    exact List.mem_append_left _ (by simp)

/-- C2: for every GCS signing request, the string-to-sign is the newline-join
of `GOOG4-RSA-SHA256`, the timestamp, the credential scope, and the (hex)
SHA-256 digest of the canonical request, and the URL carries the RSA
signature hex-encoded — two lowercase hex digits per signature byte, hence
hex rather than base64 — as the `X-Goog-Signature` query parameter. -/
theorem gcs_string_to_sign_and_hex_signature (cfg : GCSConfig) (o : PresignOptions)
    (timestamp : String) (sha256hex : String → String)
    (rsaSignBytes : String → List Nat) :
    (gcsPresign cfg o timestamp sha256hex rsaSignBytes).stringToSign =
      "GOOG4-RSA-SHA256" ++ "\n" ++ timestamp ++ "\n"
        ++ (timestamp.take 8 ++ "/auto/storage/goog4_request") ++ "\n"
        ++ sha256hex (gcsPresign cfg o timestamp sha256hex rsaSignBytes).canonicalRequest
    ∧ (∃ head : String,
        (gcsPresign cfg o timestamp sha256hex rsaSignBytes).url =
          head ++ "&X-Goog-Signature=" ++ hexEncodeBytesLower
            (rsaSignBytes (gcsPresign cfg o timestamp sha256hex rsaSignBytes).stringToSign))
    ∧ (hexEncodeBytesLower
          (rsaSignBytes (gcsPresign cfg o timestamp sha256hex rsaSignBytes).stringToSign)
        ).data.length =
        2 * (rsaSignBytes (gcsPresign cfg o timestamp sha256hex rsaSignBytes).stringToSign).length
    ∧ ∀ c ∈ (hexEncodeBytesLower
          (rsaSignBytes (gcsPresign cfg o timestamp sha256hex rsaSignBytes).stringToSign)
        ).data, c ∈ hexCharsLower := by
  refine ⟨?_, ?_, hexEncodeBytesLower_length _, hexEncodeBytesLower_chars _⟩
  · have h : (gcsPresign cfg o timestamp sha256hex rsaSignBytes).stringToSign =
        joinSep "\n" ["GOOG4-RSA-SHA256", timestamp,
          timestamp.take 8 ++ "/auto/storage/goog4_request",
          sha256hex (gcsPresign cfg o timestamp sha256hex rsaSignBytes).canonicalRequest] := rfl
    rw [h, joinSep_four]
  · exact ⟨"https://" ++ "storage.googleapis.com"
      ++ ("/" ++ jsOr o.bucket cfg.bucket ++ "/" ++ cleanPathOf o.path) ++ "?"
      ++ replacePlus (searchParamsToString
        [("X-Goog-Algorithm", "GOOG4-RSA-SHA256"),
         ("X-Goog-Credential", cfg.clientEmail ++ "/"
           ++ (timestamp.take 8 ++ "/auto/storage/goog4_request")),
         ("X-Goog-Date", timestamp),
         ("X-Goog-Expires", toString (o.expiresIn.getD 900)),
         ("X-Goog-SignedHeaders", "host")]), rfl⟩

/-- Closed instance of the GCS hex-alphabet conjunct, discharging its
membership hypothesis at a concrete signing request. -/
theorem gcs_string_to_sign_and_hex_signature_witness : '0' ∈ hexCharsLower :=
  (gcs_string_to_sign_and_hex_signature ⟨"bkt", "sa@proj.iam.gserviceaccount.com"⟩
      { operation := "GET", path := "uploads/image.jpg", contentType := none,
        bucket := none, expiresIn := none }
      "20260101T000000Z" (fun _ => "hash") (fun _ => [0])).2.2.2 '0' (by decide)

/-- C4: with no explicit provider, auto-detection checks configuration
markers in the fixed priority order R2, then GCS, then Azure, then a
configured non-`amazonaws.com` endpoint (MinIO), defaulting to S3; the five
equivalences below characterise exactly when each answer is produced, so the
first matching marker wins. -/
theorem detect_provider_priority_order (env : Env) :
    (detectProvider env = "r2" ↔
      (truthy env.R2_ACCOUNT_ID || truthy env.R2_ACCESS_KEY_ID) = true)
    ∧ (detectProvider env = "gcs" ↔
      (truthy env.R2_ACCOUNT_ID || truthy env.R2_ACCESS_KEY_ID) = false
      ∧ (truthy env.GCS_PROJECT_ID || truthy env.GOOGLE_APPLICATION_CREDENTIALS) = true)
    ∧ (detectProvider env = "azure" ↔
      (truthy env.R2_ACCOUNT_ID || truthy env.R2_ACCESS_KEY_ID) = false
      ∧ (truthy env.GCS_PROJECT_ID || truthy env.GOOGLE_APPLICATION_CREDENTIALS) = false
      ∧ (truthy env.AZURE_STORAGE_ACCOUNT || truthy env.AZURE_STORAGE_CONNECTION_STRING) = true)
    ∧ (detectProvider env = "minio" ↔
      (truthy env.R2_ACCOUNT_ID || truthy env.R2_ACCESS_KEY_ID) = false
      ∧ (truthy env.GCS_PROJECT_ID || truthy env.GOOGLE_APPLICATION_CREDENTIALS) = false
      ∧ (truthy env.AZURE_STORAGE_ACCOUNT || truthy env.AZURE_STORAGE_CONNECTION_STRING) = false
      ∧ (!(jsOr env.S3_ENDPOINT "").toList.isEmpty
          && !(jsIncludes (jsOr env.S3_ENDPOINT "") "amazonaws.com")) = true)
    ∧ (detectProvider env = "s3" ↔
      (truthy env.R2_ACCOUNT_ID || truthy env.R2_ACCESS_KEY_ID) = false
      ∧ (truthy env.GCS_PROJECT_ID || truthy env.GOOGLE_APPLICATION_CREDENTIALS) = false
      ∧ (truthy env.AZURE_STORAGE_ACCOUNT || truthy env.AZURE_STORAGE_CONNECTION_STRING) = false
      ∧ (!(jsOr env.S3_ENDPOINT "").toList.isEmpty
          && !(jsIncludes (jsOr env.S3_ENDPOINT "") "amazonaws.com")) = false) := by
  simp only [detectProvider]
  split_ifs with h1 h2 h3 h4 <;>
    refine ⟨?_, ?_, ?_, ?_, ?_⟩ <;>
    simp_all <;> intros <;> simp_all

/-- Closed instance of C4: an environment whose only marker is
`R2_ACCOUNT_ID` detects `r2`. -/
theorem detect_provider_priority_order_witness :
    detectProvider ⟨some "acct", none, none, none, none, none, none⟩ = "r2" :=
  (detect_provider_priority_order
    ⟨some "acct", none, none, none, none, none, none⟩).1.mpr (by decide)

/-- C9: an explicit provider name outside `r2`, `gcs`, `azure`, `s3`,
`minio` raises no error in the registry: the `switch` falls through to its
`default` branch and the S3-compatible presigner class is constructed. -/
theorem unknown_provider_name_falls_through_to_s3 (name : String) (env : Env)
    (h0 : name ≠ "")
    (hu : name ∉ (["r2", "gcs", "azure", "s3", "minio"] : List String)) :
    selectSigner (some name) env = SignerKind.s3 := by
  simp only [List.mem_cons, List.not_mem_nil, or_false, not_or] at hu
  obtain ⟨hr2, hgcs, haz, hs3, hminio⟩ := hu
  have ht : truthy (some name) = true := by
    cases hn : name.toList with
    | nil => exact absurd (congrArg String.mk hn) h0
    | cons c cs => simp [truthy, show name.data = c :: cs from hn]
  simp [selectSigner, ht, dispatchSigner, hr2, hgcs, haz]

/-- Closed instance of C9: the unknown provider name `webdav` selects the
S3-compatible presigner. -/
theorem unknown_provider_name_falls_through_to_s3_witness :
    selectSigner (some "webdav") ⟨none, none, none, none, none, none, none⟩
      = SignerKind.s3 :=
  unknown_provider_name_falls_through_to_s3 "webdav"
    ⟨none, none, none, none, none, none, none⟩ (by decide) (by decide)

theorem dropLeadSlash_eq (cs : List Char) :
    dropLeadSlash cs = if cs.head? = some '/' then cs.tail else cs := by
  unfold dropLeadSlash
  split
  · simp
  · rename_i hne
    cases cs with
    | nil => simp
    | cons c t =>
      have hc : c ≠ '/' := fun h => hne t (by rw [h])
      simp [hc]

theorem dropTrailSlash_eq (cs : List Char) :
    dropTrailSlash cs = if cs.getLast? = some '/' then cs.dropLast else cs := by
  unfold dropTrailSlash
  split
  · rename_i rest heq
    have hcs : cs = rest.reverse ++ ['/'] := by
      rw [← List.reverse_reverse cs, heq]
      simp
    subst hcs
    simp
  · rename_i hne
    cases hrev : cs.reverse with
    | nil =>
      have : cs = [] := by simpa using congrArg List.reverse hrev
      subst this
      simp
    | cons c t =>
      have hcs : cs = t.reverse ++ [c] := by
        rw [← List.reverse_reverse cs, hrev]
        simp
      have hc : c ≠ '/' := fun h => hne t (by rw [hrev, h])
      rw [hcs]
      simp [List.getLast?_concat, hc]

/-- C6 (amended): the configured R2 path prefix is normalised by stripping a
single leading slash and a single trailing slash (not all of them), and the
final object key after the bucket is `normalisedPrefix/cleanPath` when the
normalised prefix is non-empty and `cleanPath` otherwise, `cleanPath` being
the request path with one leading slash removed. -/
theorem r2_prefix_normalisation_and_key (cfg : R2Config) (path : String)
    (bucket : Option String) (s : String) :
    (normalizePfx s =
      ⟨(fun l => if l.getLast? = some '/' then l.dropLast else l)
        (if s.data.head? = some '/' then s.data.tail else s.data)⟩)
    ∧ r2BuildUrl cfg path bucket =
      "https://" ++ cfg.accountId ++ ".r2.cloudflarestorage.com/" ++ jsOr bucket cfg.bucket
        ++ "/" ++ (if normalizePfx cfg.pathPfx ≠ "" then
            normalizePfx cfg.pathPfx ++ "/" ++ cleanPathOf path
          else cleanPathOf path) := by
  constructor
  · simp only [normalizePfx, String.toList, dropLeadSlash_eq, dropTrailSlash_eq]
  · simp only [r2BuildUrl]
    congr 1
    by_cases h : normalizePfx cfg.pathPfx = ""
    · simp [h]
    · have hne : (normalizePfx cfg.pathPfx).toList.isEmpty = false := by
        cases hn : (normalizePfx cfg.pathPfx).toList with
        | nil => exact absurd (congrArg String.mk hn) h
        | cons c cs => rfl
      simp [hne, h]
      intro hd
      exact absurd (congrArg String.mk hd) h

/-- C6 counterexample: the claim that the configured prefix is stripped of
leading and trailing slashes fails at `"//p//"`: one slash is removed from
each end, the result `"/p/"` still starts and ends with a slash, and the
built URL contains doubled slashes around the prefix. -/
theorem r2_prefix_retains_slashes_counterexample :
    normalizePfx "//p//" = "/p/"
    ∧ jsStartsWith (normalizePfx "//p//") "/" = true
    ∧ r2BuildUrl ⟨"acc", "bkt", "//p//"⟩ "x" none
        = "https://acc.r2.cloudflarestorage.com/bkt//p//x" := by
  refine ⟨by decide, by decide, by decide⟩

/-- The `expiresIn` field of a single-presign response, when successful. -/
def singleExpiry : SingleResult → Option Nat
  | .err _ _ => none
  | .ok _ e _ _ => some e

/-- The `expiresIn` field of a batch-presign response, when successful. -/
def batchExpiry : BatchResult → Option Nat
  | .err _ _ => none
  | .ok _ e _ => some e

/-- Every successful single-presign response carries `DEFAULT_EXPIRY`. -/
theorem handlePresign_ok_expiry (getP : GetPresigner) (b : PresignBody)
    (u : String) (e : Nat) (p op : String)
    (h : handlePresign getP b = .ok u e p op) : e = DEFAULT_EXPIRY := by
  simp only [handlePresign] at h
  split_ifs at h <;> try exact SingleResult.noConfusion h
  all_goals (split at h <;> try exact SingleResult.noConfusion h)
  all_goals (split at h <;> try exact SingleResult.noConfusion h)
  all_goals (injection h with h1 h2 h3 h4; exact h2.symm)

/-- Every successful batch-presign response carries `DEFAULT_EXPIRY`. -/
theorem handlePresignBatch_ok_expiry (getP : GetPresigner) (b : BatchBody)
    (urls : List (String × String)) (e : Nat) (n : Nat)
    (h : handlePresignBatch getP b = .ok urls e n) : e = DEFAULT_EXPIRY := by
  simp only [handlePresignBatch] at h
  split at h <;> try exact BatchResult.noConfusion h
  all_goals (split_ifs at h <;> try exact BatchResult.noConfusion h)
  all_goals (split at h <;> try exact BatchResult.noConfusion h)
  all_goals (split at h <;> try exact BatchResult.noConfusion h)
  all_goals (split at h <;> try exact BatchResult.noConfusion h)
  all_goals (injection h with h1 h2 h3; exact h2.symm)

/-- C7 (amended): the expiry embedded in every signed URL is the fixed
default of 900 seconds; the handlers never read the request body's
`expiresIn`, so a caller at the external HTTP interface cannot override it
(the providers' own `expiresIn` destructuring default of 900 applies only to
direct internal callers). -/
theorem expiry_fixed_at_default_900 (getP getPb : GetPresigner) (sbody : PresignBody)
    (bbody : BatchBody) (x y : Option Nat) :
    (singleExpiry (handlePresign getP sbody)).getD DEFAULT_EXPIRY = DEFAULT_EXPIRY
    ∧ (batchExpiry (handlePresignBatch getPb bbody)).getD DEFAULT_EXPIRY = DEFAULT_EXPIRY
    ∧ handlePresign getP { sbody with expiresIn := x }
        = handlePresign getP { sbody with expiresIn := y }
    ∧ handlePresignBatch getPb { bbody with expiresIn := x }
        = handlePresignBatch getPb { bbody with expiresIn := y } := by
  refine ⟨?_, ?_, ?_, ?_⟩
  · cases hr : handlePresign getP sbody with
    | err s m => simp [singleExpiry]
    | ok u e p op =>
      have he := handlePresign_ok_expiry getP sbody u e p op hr
      simp [singleExpiry, he]
  · cases hr : handlePresignBatch getPb bbody with
    | err s m => simp [batchExpiry]
    | ok urls e n =>
      have he := handlePresignBatch_ok_expiry getPb bbody urls e n hr
      simp [batchExpiry, he]
  · cases sbody
    rfl
  · cases bbody
    rfl

/-- C7 counterexample: a request body carrying `expiresIn: 3600` still
yields a response whose expiry is 900 — the claimed caller override does not
exist. -/
theorem expiry_override_ignored_counterexample :
    handlePresign (fun _ => Except.ok (fun _ => Except.ok "u"))
      { provider := none, operation := some "GET", path := some "p",
        contentType := none, bucket := none, expiresIn := some 3600 }
      = SingleResult.ok "u" 900 "p" "GET"
    ∧ (900 : Nat) ≠ 3600 := by
  exact ⟨by decide, by decide⟩

/-- If some path in the batch fails to sign, the sequential loop aborts with
an error. -/
theorem runBatch_error_of_mem (presigner : Presigner) (op : String)
    (bucket : Option String) (paths : List String)
    (h : ∃ p ∈ paths, ∃ e, presigner (batchOpts op bucket p) = .error e) :
    ∃ e, runBatch presigner op bucket paths = .error e := by
  induction paths with
  | nil => obtain ⟨p, hp, _⟩ := h; cases hp
  | cons q t ih =>
    obtain ⟨p, hp, e, he⟩ := h
    cases hq : presigner (batchOpts op bucket q) with
    | error e2 => exact ⟨e2, by simp [runBatch, hq]⟩
    | ok u =>
      rcases List.mem_cons.mp hp with rfl | hpt
      · rw [hq] at he; cases he
      · obtain ⟨e2, he2⟩ := ih ⟨p, hpt, e, he⟩
        exact ⟨e2, by simp [runBatch, hq, he2]⟩

/-- If every path signs successfully, the loop returns one URL per path, in
order. -/
theorem runBatch_ok_of_forall (presigner : Presigner) (op : String)
    (bucket : Option String) (paths : List String)
    (h : ∀ p ∈ paths, ∃ u, presigner (batchOpts op bucket p) = .ok u) :
    ∃ urls, runBatch presigner op bucket paths = .ok urls
      ∧ urls.map Prod.fst = paths := by
  induction paths with
  | nil => exact ⟨[], rfl, rfl⟩
  | cons q t ih =>
    obtain ⟨u, hu⟩ := h q (List.mem_cons_self q t)
    obtain ⟨urls, hr, hf⟩ := ih (fun p hp => h p (List.mem_cons_of_mem q hp))
    exact ⟨(q, u) :: urls, by simp [runBatch, hu, hr], by simp [hf]⟩

/-- A single request whose path fails the traversal check is answered with
a 400 error that does not depend on the presigner resolver. -/
theorem handlePresign_invalid_path (sbody : PresignBody) (p : String)
    (hsp : sbody.path = some p)
    (hbad : (jsIncludes p ".." || jsStartsWith p "/") = true) :
    ∃ m, ∀ g : GetPresigner, handlePresign g sbody = .err 400 m := by
  by_cases h1 : (!truthy sbody.operation || !truthy sbody.path) = true
  · exact ⟨"Missing required fields: operation, path",
      fun g => by simp only [handlePresign]; split_ifs <;> simp_all⟩
  · by_cases h2 : (!(["GET", "PUT", "DELETE"].contains (sbody.operation.getD ""))) = true
    · exact ⟨"Invalid operation. Must be GET, PUT, or DELETE",
        fun g => by simp only [handlePresign]; split_ifs <;> simp_all⟩
    · have h3 : (jsIncludes (sbody.path.getD "") ".."
          || jsStartsWith (sbody.path.getD "") "/") = true := by
        rw [hsp]
        simpa using hbad
      exact ⟨"Invalid path",
        fun g => by simp only [handlePresign]; split_ifs <;> simp_all⟩

/-- A batch request containing an invalid path entry is answered with a 400
error that does not depend on the presigner resolver. -/
theorem handlePresignBatch_invalid_path (bbody : BatchBody) (l : List JVal)
    (hbp : bbody.paths = some l)
    (hbadl : ∃ v ∈ l, isInvalidEntry v = true) :
    ∃ m, ∀ g : GetPresigner, handlePresignBatch g bbody = .err 400 m := by
  by_cases hemp : l = []
  · obtain ⟨v, hv, _⟩ := hbadl
    rw [hemp] at hv
    cases hv
  · by_cases hlen : l.length > 100
    · exact ⟨"Batch size exceeds maximum of 100",
        fun g => by simp [handlePresignBatch, hbp, hemp, hlen]⟩
    · obtain ⟨v, hv, hinv⟩ := hbadl
      cases hfind : l.find? isInvalidEntry with
      | none => exact absurd hinv (by simpa using (List.find?_eq_none.mp hfind v hv))
      | some w =>
        exact ⟨"Invalid path: " ++ w.toStr,
          fun g => by simp [handlePresignBatch, hbp, hemp, hlen, hfind]⟩

/-- C3: on both endpoints, a path containing `..` or starting with `/` is
rejected with a 400-class error, the response is identical for every
presigner resolver (so no provider is constructed or invoked), and no URL is
produced. -/
theorem path_traversal_rejected_before_any_provider (getP getP2 : GetPresigner) (sbody : PresignBody) (bbody : BatchBody)
    (p : String) (l : List JVal)
    (hsp : sbody.path = some p)
    (hbadp : jsIncludes p ".." = true ∨ jsStartsWith p "/" = true)
    (hbp : bbody.paths = some l)
    (hbadl : ∃ v ∈ l, isInvalidEntry v = true) :
    (∃ m, handlePresign getP sbody = .err 400 m)
    ∧ handlePresign getP sbody = handlePresign getP2 sbody
    ∧ (∃ m, handlePresignBatch getP bbody = .err 400 m)
    ∧ handlePresignBatch getP bbody = handlePresignBatch getP2 bbody := by
  obtain ⟨m1, hm1⟩ := handlePresign_invalid_path sbody p hsp (by
    rcases hbadp with h | h <;> simp [h])
  obtain ⟨m2, hm2⟩ := handlePresignBatch_invalid_path bbody l hbp hbadl
  exact ⟨⟨m1, hm1 getP⟩, (hm1 getP).trans (hm1 getP2).symm,
    ⟨m2, hm2 getP⟩, (hm2 getP).trans (hm2 getP2).symm⟩

/-- When all batch validations pass and the resolver yields a presigner,
the response is determined by the sequential signing loop. -/
theorem handlePresignBatch_run (getP : GetPresigner) (bbody : BatchBody)
    (l : List JVal) (presigner : Presigner)
    (hbp : bbody.paths = some l) (hne : l ≠ []) (hlen : ¬ l.length > 100)
    (hfind : l.find? isInvalidEntry = none)
    (hgp : getP bbody.provider = Except.ok presigner) :
    handlePresignBatch getP bbody =
      match runBatch presigner (bbody.operation.getD "GET") bbody.bucket
          (l.map JVal.toStr) with
      | .error e => .err 500 e
      | .ok urls => .ok urls DEFAULT_EXPIRY l.length := by
  simp [handlePresignBatch, List.isEmpty_iff, hbp, hne, hlen, hfind, hgp]

/-- C5: in a batch whose paths all pass validation, if signing any path
fails then the whole response is a single 500-class error — no partial
path-to-URL map is returned even when earlier paths had already signed. -/
theorem batch_first_failure_aborts_whole_batch (getP : GetPresigner) (bbody : BatchBody) (l : List JVal)
    (presigner : Presigner)
    (hbp : bbody.paths = some l)
    (hval : ∀ v ∈ l, isInvalidEntry v = false)
    (hne : l ≠ []) (hlen : l.length ≤ 100)
    (hgp : getP bbody.provider = Except.ok presigner)
    (hfail : ∃ p ∈ l.map JVal.toStr, ∃ e,
        presigner (batchOpts (bbody.operation.getD "GET") bbody.bucket p)
          = .error e) :
    ∃ m, handlePresignBatch getP bbody = .err 500 m := by
  have hfind : l.find? isInvalidEntry = none :=
    List.find?_eq_none.mpr (fun v hv => by simp [hval v hv])
  obtain ⟨e, he⟩ := runBatch_error_of_mem presigner (bbody.operation.getD "GET")
    bbody.bucket (l.map JVal.toStr) hfail
  refine ⟨e, ?_⟩
  rw [handlePresignBatch_run getP bbody l presigner hbp hne (by omega) hfind hgp, he]

/-- C8: a batch of 101 paths is rejected with a 400 error before any
signing (the same answer for every resolver), while a batch of exactly 100
valid paths is accepted and signed. -/
theorem batch_size_bound_101_rejected_100_accepted (getPa getPb : GetPresigner) (b101 b100 : BatchBody)
    (l101 l100 : List JVal) (presigner : Presigner)
    (h1 : b101.paths = some l101) (hlen101 : l101.length = 101)
    (h2 : b100.paths = some l100) (hlen100 : l100.length = 100)
    (hval : ∀ v ∈ l100, isInvalidEntry v = false)
    (hgp : getPb b100.provider = Except.ok presigner)
    (hok : ∀ o : PresignOptions, ∃ u, presigner o = Except.ok u) :
    handlePresignBatch getPa b101 = .err 400 "Batch size exceeds maximum of 100"
    ∧ ∃ urls, handlePresignBatch getPb b100 = .ok urls DEFAULT_EXPIRY 100 := by
  constructor
  · have hne : l101 ≠ [] := by
      intro h
      rw [h] at hlen101
      cases hlen101
    have hgt : l101.length > 100 := by omega
    simp [handlePresignBatch, List.isEmpty_iff, h1, hne, hgt]
  · have hne : l100 ≠ [] := by
      intro h
      rw [h] at hlen100
      cases hlen100
    have hfind : l100.find? isInvalidEntry = none :=
      List.find?_eq_none.mpr (fun v hv => by simp [hval v hv])
    obtain ⟨urls, hr, hf⟩ := runBatch_ok_of_forall presigner (b100.operation.getD "GET")
      b100.bucket (l100.map JVal.toStr) (fun p hp => hok _)
    refine ⟨urls, ?_⟩
    rw [handlePresignBatch_run getPb b100 l100 presigner h2 hne (by omega) hfind hgp, hr,
      hlen100]

/-- C10: the two endpoints treat the empty path inconsistently — a single
request with an empty path is rejected by the falsy required-fields check
with a 400 `missing required fields` error, while a batch whose paths array
contains the empty string passes validation and the empty path is signed
into the returned map. -/
theorem empty_path_single_rejected_batch_signed (getP1 getP2 : GetPresigner) (sbody : PresignBody)
    (bbody : BatchBody) (l : List JVal) (presigner : Presigner)
    (hsp : sbody.path = some "")
    (hbp : bbody.paths = some l) (hmem : JVal.jstr "" ∈ l)
    (hval : ∀ v ∈ l, isInvalidEntry v = false) (hlen : l.length ≤ 100)
    (hgp : getP2 bbody.provider = Except.ok presigner)
    (hok : ∀ o : PresignOptions, ∃ u, presigner o = Except.ok u) :
    handlePresign getP1 sbody = .err 400 "Missing required fields: operation, path"
    ∧ ∃ urls u, handlePresignBatch getP2 bbody = .ok urls DEFAULT_EXPIRY l.length
        ∧ ("", u) ∈ urls := by
  constructor
  · have hfalse : truthy sbody.path = false := by rw [hsp]; rfl
    simp [handlePresign, hfalse]
  · have hne : l ≠ [] := by
      intro h
      rw [h] at hmem
      cases hmem
    have hfind : l.find? isInvalidEntry = none :=
      List.find?_eq_none.mpr (fun v hv => by simp [hval v hv])
    obtain ⟨urls, hr, hf⟩ := runBatch_ok_of_forall presigner (bbody.operation.getD "GET")
      bbody.bucket (l.map JVal.toStr) (fun p hp => hok _)
    have hmem2 : "" ∈ urls.map Prod.fst := by
      rw [hf]
      exact List.mem_map.mpr ⟨JVal.jstr "", hmem, rfl⟩
    obtain ⟨pair, hpair, hfst⟩ := List.mem_map.mp hmem2
    refine ⟨urls, pair.2, ?_, ?_⟩
    · rw [handlePresignBatch_run getP2 bbody l presigner hbp hne (by omega) hfind hgp, hr]
    · rw [← hfst]
      exact hpair

/-- Closed instance of C3 at the traversal path `a/../b` and the absolute
batch path `/x`. -/
theorem path_traversal_rejected_before_any_provider_witness :
    (∃ m, handlePresign (fun _ => Except.error "no config")
        { provider := none, operation := some "GET", path := some "a/../b",
          contentType := none, bucket := none, expiresIn := none }
      = SingleResult.err 400 m)
    ∧ handlePresign (fun _ => Except.error "no config")
        { provider := none, operation := some "GET", path := some "a/../b",
          contentType := none, bucket := none, expiresIn := none }
      = handlePresign (fun _ => Except.ok (fun _ => Except.ok "u"))
        { provider := none, operation := some "GET", path := some "a/../b",
          contentType := none, bucket := none, expiresIn := none }
    ∧ (∃ m, handlePresignBatch (fun _ => Except.error "no config")
        { provider := none, paths := some [JVal.jstr "/x"], operation := none,
          bucket := none, expiresIn := none }
      = BatchResult.err 400 m)
    ∧ handlePresignBatch (fun _ => Except.error "no config")
        { provider := none, paths := some [JVal.jstr "/x"], operation := none,
          bucket := none, expiresIn := none }
      = handlePresignBatch (fun _ => Except.ok (fun _ => Except.ok "u"))
        { provider := none, paths := some [JVal.jstr "/x"], operation := none,
          bucket := none, expiresIn := none } :=
  path_traversal_rejected_before_any_provider
    (fun _ => Except.error "no config") (fun _ => Except.ok (fun _ => Except.ok "u"))
    { provider := none, operation := some "GET", path := some "a/../b",
      contentType := none, bucket := none, expiresIn := none }
    { provider := none, paths := some [JVal.jstr "/x"], operation := none,
      bucket := none, expiresIn := none }
    "a/../b" [JVal.jstr "/x"] rfl (Or.inl (by decide)) rfl
    ⟨JVal.jstr "/x", by decide, by decide⟩

/-- Closed instance of C5: two paths, the second one's signing failing,
yields a single whole-batch error. -/
theorem batch_first_failure_aborts_whole_batch_witness :
    ∃ m, handlePresignBatch
        (fun _ => Except.ok (fun o =>
          if o.path = "b" then Except.error "boom" else Except.ok "u"))
        { provider := some "gcs", paths := some [JVal.jstr "a", JVal.jstr "b"],
          operation := none, bucket := none, expiresIn := none }
      = BatchResult.err 500 m :=
  batch_first_failure_aborts_whole_batch
    (fun _ => Except.ok (fun o =>
      if o.path = "b" then Except.error "boom" else Except.ok "u"))
    { provider := some "gcs", paths := some [JVal.jstr "a", JVal.jstr "b"],
      operation := none, bucket := none, expiresIn := none }
    [JVal.jstr "a", JVal.jstr "b"]
    (fun o => if o.path = "b" then Except.error "boom" else Except.ok "u")
    rfl (by decide) (by decide) (by decide) rfl
    ⟨"b", by decide, "boom", rfl⟩

/-- Closed instance of C8 at batches of 101 and of 100 identical valid
paths. -/
theorem batch_size_bound_101_rejected_100_accepted_witness :
    handlePresignBatch (fun _ => Except.ok (fun _ => Except.ok "u"))
      { provider := none, paths := some (List.replicate 101 (JVal.jstr "a")),
        operation := none, bucket := none, expiresIn := none }
      = BatchResult.err 400 "Batch size exceeds maximum of 100"
    ∧ ∃ urls, handlePresignBatch (fun _ => Except.ok (fun _ => Except.ok "u"))
      { provider := none, paths := some (List.replicate 100 (JVal.jstr "a")),
        operation := none, bucket := none, expiresIn := none }
      = BatchResult.ok urls DEFAULT_EXPIRY 100 :=
  batch_size_bound_101_rejected_100_accepted
    (fun _ => Except.ok (fun _ => Except.ok "u"))
    (fun _ => Except.ok (fun _ => Except.ok "u"))
    { provider := none, paths := some (List.replicate 101 (JVal.jstr "a")),
      operation := none, bucket := none, expiresIn := none }
    { provider := none, paths := some (List.replicate 100 (JVal.jstr "a")),
      operation := none, bucket := none, expiresIn := none }
    (List.replicate 101 (JVal.jstr "a")) (List.replicate 100 (JVal.jstr "a"))
    (fun _ => Except.ok "u")
    rfl (by simp) rfl (by simp)
    (fun v hv => by rw [List.eq_of_mem_replicate hv]; rfl)
    rfl (fun o => ⟨"u", rfl⟩)

/-- Closed instance of C10: path `""` is rejected on the single endpoint
and signed on the batch endpoint. -/
theorem empty_path_single_rejected_batch_signed_witness :
    handlePresign (fun _ => Except.ok (fun o => Except.ok ("U:" ++ o.path)))
      { provider := none, operation := some "GET", path := some "",
        contentType := none, bucket := none, expiresIn := none }
      = SingleResult.err 400 "Missing required fields: operation, path"
    ∧ ∃ urls u, handlePresignBatch
        (fun _ => Except.ok (fun o => Except.ok ("U:" ++ o.path)))
        { provider := none, paths := some [JVal.jstr "", JVal.jstr "x"],
          operation := none, bucket := none, expiresIn := none }
      = BatchResult.ok urls DEFAULT_EXPIRY ([JVal.jstr "", JVal.jstr "x"] : List JVal).length
      ∧ ("", u) ∈ urls :=
  empty_path_single_rejected_batch_signed
    (fun _ => Except.ok (fun o => Except.ok ("U:" ++ o.path)))
    (fun _ => Except.ok (fun o => Except.ok ("U:" ++ o.path)))
    { provider := none, operation := some "GET", path := some "",
      contentType := none, bucket := none, expiresIn := none }
    { provider := none, paths := some [JVal.jstr "", JVal.jstr "x"],
      operation := none, bucket := none, expiresIn := none }
    [JVal.jstr "", JVal.jstr "x"]
    (fun o => Except.ok ("U:" ++ o.path))
    rfl rfl (by decide) (by decide) (by decide) rfl
    (fun o => ⟨"U:" ++ o.path, rfl⟩)

end SveltiaPresign
